import Mathlib

/-!
Verification development for the AI-personalized-learning-platform backend
(Supabase edge functions): the outline-refinement loop (`edit-course-outline`),
the course materializer (`generate-final-course`), the progress reconciler
(`update-progress`) and the analytics streak computation (`get-user-analytics`).

The TypeScript handlers are shallowly embedded as pure Lean functions over
explicit state records.  JSON documents are modelled by the inductive `Json`
below; `jsonParse` models `JSON.parse` (restricted to integer numerals and the
common escape sequences) and `Json.stringify` models `JSON.stringify` with the
indentation whitespace elided (no claim depends on whitespace).  Database
tables are modelled as Lean lists of row records; fallible inserts/updates are
modelled by boolean outcome flags supplied to the handler, and the external
model provider by a function argument `model : String → Except String String`.
Each handler also returns the list of prompts it sent to the provider.
-/

/-- JSON value, as produced by `JSON.parse`.  Numbers are restricted to
integers (every numeric literal appearing in the verified claims is an
integer). -/
inductive Json where
  | null : Json
  | bool : Bool → Json
  | num : Int → Json
  | str : String → Json
  | arr : List Json → Json
  | obj : List (String × Json) → Json

/-- Whitespace recognised by the JSON grammar. -/
def isWsChar (c : Char) : Bool :=
  c = ' ' || c = '\n' || c = '\t' || c = '\r'

/-- Drop leading JSON whitespace. -/
def skipWs (cs : List Char) : List Char :=
  cs.dropWhile isWsChar

/-- Decode a single-character escape sequence inside a JSON string literal. -/
def escChar (e : Char) : Option Char :=
  if e = '\x22' then some '\x22'
  else if e = '\x5c' then some '\x5c'
  else if e = '/' then some '/'
  else if e = 'n' then some '\n'
  else if e = 't' then some '\t'
  else if e = 'r' then some '\r'
  else if e = 'b' then some '\x08'
  else if e = 'f' then some '\x0c'
  else none

/-- Parse the body of a JSON string literal (the opening quote already
consumed), returning the decoded string and the rest of the input. -/
def parseStrBody : List Char → String → Option (String × List Char)
  | [], _ => none
  | c :: rest, acc =>
    if c = '\x22' then some (acc, rest)
    else if c = '\x5c' then
      match rest with
      | [] => none
      | e :: rest2 =>
        match escChar e with
        | some d => parseStrBody rest2 (acc.push d)
        | none => none
    else parseStrBody rest (acc.push c)

/-- Consume a maximal run of decimal digits, accumulating their value. -/
def digitsGo : List Char → Nat → Nat × List Char
  | [], acc => (acc, [])
  | c :: rest, acc =>
    if c.isDigit then digitsGo rest (acc * 10 + (c.toNat - 48))
    else (acc, c :: rest)

/-- Parse a nonempty run of decimal digits. -/
def parseDigits : List Char → Option (Nat × List Char)
  | [] => none
  | c :: rest =>
    if c.isDigit then some (digitsGo (c :: rest) 0) else none

/-- A partially-built JSON container on the parser stack. -/
inductive JFrame where
  | arrF : List Json → JFrame
  | objF : List (String × Json) → String → JFrame

/-- Parser phase: expecting a value, or holding a completed value to be
folded into the enclosing container. -/
inductive JPhase where
  | pv : JPhase
  | pr : Json → JPhase

/-- Fuel-indexed shift/reduce JSON parser (one step per input token, so any
fuel larger than the input length suffices).  Returns the parsed value and
the unconsumed remainder. -/
def jmachine : Nat → JPhase → List JFrame → List Char → Option (Json × List Char)
  | 0, _, _, _ => none
  | f + 1, JPhase.pv, stk, cs =>
    match skipWs cs with
    | [] => none
    | c :: rest =>
      if c = '\x7b' then
        match skipWs rest with
        | '\x7d' :: r2 => jmachine f (JPhase.pr (Json.obj [])) stk r2
        | '\x22' :: r2 =>
          match parseStrBody r2 "" with
          | some (k, r3) =>
            match skipWs r3 with
            | ':' :: r4 => jmachine f JPhase.pv (JFrame.objF [] k :: stk) r4
            | _ => none
          | none => none
        | _ => none
      else if c = '[' then
        match skipWs rest with
        | ']' :: r2 => jmachine f (JPhase.pr (Json.arr [])) stk r2
        | _ => jmachine f JPhase.pv (JFrame.arrF [] :: stk) rest
      else if c = '\x22' then
        match parseStrBody rest "" with
        | some (s, r2) => jmachine f (JPhase.pr (Json.str s)) stk r2
        | none => none
      else if c = '-' then
        match parseDigits rest with
        | some (n, r2) => jmachine f (JPhase.pr (Json.num (-(n : Int)))) stk r2
        | none => none
      else if c.isDigit then
        match parseDigits (c :: rest) with
        | some (n, r2) => jmachine f (JPhase.pr (Json.num (n : Int))) stk r2
        | none => none
      else if (c :: rest).take 4 = "true".data then
        jmachine f (JPhase.pr (Json.bool true)) stk ((c :: rest).drop 4)
      else if (c :: rest).take 5 = "false".data then
        jmachine f (JPhase.pr (Json.bool false)) stk ((c :: rest).drop 5)
      else if (c :: rest).take 4 = "null".data then
        jmachine f (JPhase.pr Json.null) stk ((c :: rest).drop 4)
      else none
  | f + 1, JPhase.pr v, stk, cs =>
    match stk with
    | [] => some (v, cs)
    | JFrame.arrF acc :: stk2 =>
      match skipWs cs with
      | ',' :: r2 => jmachine f JPhase.pv (JFrame.arrF (acc ++ [v]) :: stk2) r2
      | ']' :: r2 => jmachine f (JPhase.pr (Json.arr (acc ++ [v]))) stk2 r2
      | _ => none
    | JFrame.objF acc k :: stk2 =>
      match skipWs cs with
      | ',' :: r2 =>
        match skipWs r2 with
        | '\x22' :: r3 =>
          match parseStrBody r3 "" with
          | some (k2, r4) =>
            match skipWs r4 with
            | ':' :: r5 => jmachine f JPhase.pv (JFrame.objF (acc ++ [(k, v)]) k2 :: stk2) r5
            | _ => none
          | none => none
        | _ => none
      | '\x7d' :: r2 => jmachine f (JPhase.pr (Json.obj (acc ++ [(k, v)]))) stk2 r2
      | _ => none

/-- Model of `JSON.parse`: parse a complete JSON document (trailing
whitespace allowed), `none` mirrors the thrown `SyntaxError`. -/
def jsonParse (s : String) : Option Json :=
  match jmachine (s.data.length + 1) JPhase.pv [] s.data with
  | some (j, rest) => if skipWs rest = [] then some j else none
  | none => none

/-- Escape one character for JSON string output. -/
def escOut (c : Char) : String :=
  if c = '\x22' then "\x5c\x22"
  else if c = '\x5c' then "\x5c\x5c"
  else if c = '\n' then "\x5cn"
  else if c = '\t' then "\x5ct"
  else if c = '\r' then "\x5cr"
  else String.singleton c

/-- Quote a string as a JSON string literal. -/
def quoteStr (s : String) : String :=
  "\x22" ++ String.join (s.data.map escOut) ++ "\x22"

/-- Join strings with a separator, as `Array.prototype.join`. -/
def joinSep (sep : String) : List String → String
  | [] => ""
  | [x] => x
  | x :: y :: xs => x ++ sep ++ joinSep sep (y :: xs)

mutual

/-- Model of `JSON.stringify` (indentation whitespace elided: the handlers
pass `null, 2` as formatting arguments, which only affects whitespace). -/
def Json.stringify : Json → String
  | Json.null => "null"
  | Json.bool b => if b then "true" else "false"
  | Json.num n => toString n
  | Json.str s => quoteStr s
  | Json.arr l => "[" ++ joinSep "," (stringifyArrItems l) ++ "]"
  | Json.obj kvs => "\x7b" ++ joinSep "," (stringifyObjItems kvs) ++ "\x7d"

/-- Serialized elements of a JSON array. -/
def stringifyArrItems : List Json → List String
  | [] => []
  | j :: js => Json.stringify j :: stringifyArrItems js

/-- Serialized members of a JSON object. -/
def stringifyObjItems : List (String × Json) → List String
  | [] => []
  | kv :: kvs => (quoteStr kv.1 ++ ":" ++ Json.stringify kv.2) :: stringifyObjItems kvs

end

/-- JavaScript property read `j.k` on an object, `undefined` (`none`)
otherwise. -/
def Json.getField : Json → String → Option Json
  | Json.obj kvs, k => kvs.lookup k
  | _, _ => none

/-- Read property `k` when it is an array (`approved_outline.modules` guarded
by `Array.isArray`). -/
def Json.getArrField (j : Json) (k : String) : Option (List Json) :=
  match j.getField k with
  | some (Json.arr l) => some l
  | _ => none

/-- JavaScript `x.k || default` for string-valued properties: a missing,
non-string or empty-string (falsy) property yields the default. -/
def jsStrOr (v : Option Json) (d : String) : String :=
  match v with
  | some (Json.str s) => if s = "" then d else s
  | _ => none |>.getD d

/-- `list.map((x, index) => f(index, x))` with explicit start index. -/
def mapWithIndex (f : Nat → α → β) : Nat → List α → List β
  | _, [] => []
  | i, a :: as => f i a :: mapWithIndex f (i + 1) as

/-- Index of the first occurrence of a character. -/
def listIdxOf? (c : Char) : List Char → Option Nat
  | [] => none
  | x :: xs => if x = c then some 0 else (listIdxOf? c xs).map (· + 1)

/-- Model of `content.match(/\x7b[\s\S]*\x7d/)`: the regex matches greedily
from the first opening brace to the last closing brace of the whole text
(leftmost start, longest extent); `none` when no such span exists. -/
def greedyBraceSpan (s : String) : Option String :=
  let cs := s.data
  match listIdxOf? '\x7b' cs, (listIdxOf? '\x7d' cs.reverse).map (fun r => cs.length - 1 - r) with
  | some i, some j =>
    if i < j then some (String.mk ((cs.drop i).take (j - i + 1))) else none
  | _, _ => none

/-- Modelled from the spec: body of the first balanced brace span, tracking
nesting depth from the first opening brace. -/
def balancedGo : List Char → Nat → List Char → Option String
  | [], _, _ => none
  | c :: rest, depth, acc =>
    if c = '\x7b' then balancedGo rest (depth + 1) (acc ++ [c])
    else if c = '\x7d' then
      if depth = 1 then some (String.mk (acc ++ [c]))
      else if depth = 0 then none
      else balancedGo rest (depth - 1) (acc ++ [c])
    else balancedGo rest depth (acc ++ [c])

/-- Modelled from the spec: `attempt to extract the first balanced \x7b...\x7d
span` — the substring from the first opening brace to its matching closing
brace.  This is the SPEC's description of the fallback; the code's actual
fallback is `greedyBraceSpan`. -/
def firstBalancedSpan (s : String) : Option String :=
  match s.data.dropWhile (fun c => !(c = '\x7b')) with
  | [] => none
  | cs => balancedGo cs 0 []

/-- Model of the handlers' structured-output recovery (identical in
`generate-course-outline` and `edit-course-outline`): direct `JSON.parse` of
the provider text; on failure, `JSON.parse` of the greedy brace span; `none`
models every thrown path (`Failed to parse AI response as JSON` or the inner
`JSON.parse` throwing), which the surrounding `catch` surfaces as a 500. -/
def parseModelOutput (content : String) : Option Json :=
  match jsonParse content with
  | some j => some j
  | none =>
    match greedyBraceSpan content with
    | some sub => jsonParse sub
    | none => none

/-- Request body of the `update-progress` function (`ProgressUpdate`);
`none` models an absent (`undefined`) optional field. -/
structure ProgressUpdateRequest where
  course_id : String
  module_id : Option String
  progress_percentage : Option Int
  completed_modules : Option (List String)
  time_spent : Option Int
  notes : Option String
deriving DecidableEq

/-- Row of the `user_progress` table as read and written by
`update-progress` (`last_accessed` is not set by the insert path). -/
structure UserProgressRow where
  user_id : String
  course_id : String
  progress_percentage : Int
  completed_modules : List String
  time_spent : Int
  notes : String
  last_accessed : Option Nat
deriving DecidableEq

/-- Row of the `module_progress` table. -/
structure ModuleProgressRow where
  user_id : String
  course_id : String
  module_id : String
  completed : Bool
  time_spent : Int
  last_accessed : Nat
deriving DecidableEq

/-- The columns of a `courses` row touched by `update-progress`. -/
structure CourseStatusRow where
  id : String
  user_id : String
  status : String
  completed_at : Option Nat
deriving DecidableEq

/-- Database state visible to `update-progress`. -/
structure UPState where
  user_progress : List UserProgressRow
  module_progress : List ModuleProgressRow
  courses : List CourseStatusRow
deriving DecidableEq

/-- Response of `update-progress`: HTTP status, `success` flag, and the
returned progress row (`progressData`). -/
structure UPResponse where
  status : Nat
  success : Bool
  progress : Option UserProgressRow
deriving DecidableEq

/-- First `user_progress` row for `(user, course)` — the
`.eq(user_id).eq(course_id).single()` read (uniqueness of the pair is the
schema invariant). -/
def findProgress (l : List UserProgressRow) (userId courseId : String) : Option UserProgressRow :=
  l.find? (fun r => r.user_id == userId && r.course_id == courseId)

/-- The merged row written by the update branch: percentage is
`Math.max(existing, incoming)`, `completed_modules` replaced when supplied
(`||` — a supplied empty array is truthy and replaces), `time_spent`
accumulates, `notes` replaced only when supplied non-empty (`""` is falsy),
`last_accessed` stamped with the current time. -/
def mergeProgress (ex : UserProgressRow) (userId : String) (req : ProgressUpdateRequest)
    (p : Int) (now : Nat) : UserProgressRow :=
  { user_id := userId
    course_id := req.course_id
    progress_percentage := max ex.progress_percentage p
    completed_modules := req.completed_modules.getD ex.completed_modules
    time_spent := ex.time_spent + req.time_spent.getD 0
    notes := match req.notes with
             | some n => if n = "" then ex.notes else n
             | none => ex.notes
    last_accessed := some now }

/-- The fresh row written by the insert branch (`last_accessed` left to the
database default, modelled as `none`). -/
def freshProgress (userId : String) (req : ProgressUpdateRequest) (p : Int) : UserProgressRow :=
  { user_id := userId
    course_id := req.course_id
    progress_percentage := p
    completed_modules := req.completed_modules.getD []
    time_spent := req.time_spent.getD 0
    notes := req.notes.getD ""
    last_accessed := none }

/-- Upsert of the `(user, course, module)` row in `module_progress`. -/
def upsertModuleProgress (l : List ModuleProgressRow) (row : ModuleProgressRow) : List ModuleProgressRow :=
  if l.any (fun r => r.user_id == row.user_id && r.course_id == row.course_id && r.module_id == row.module_id) then
    l.map (fun r =>
      if r.user_id == row.user_id && r.course_id == row.course_id && r.module_id == row.module_id then row else r)
  else l ++ [row]

/-- Shallow embedding of the `update-progress` handler body after
authentication (`userId` is the JWT user; `now` the current time).
Validation is `!course_id || progress_percentage === undefined`; there is no
range check on the percentage.  The course-completion write fires on the
INCOMING percentage. -/
def updateProgress (userId : String) (now : Nat) (req : ProgressUpdateRequest) (st : UPState) :
    UPResponse × UPState :=
  if req.course_id = "" ∨ req.progress_percentage = none then
    ({ status := 400, success := false, progress := none }, st)
  else
    let p := req.progress_percentage.getD 0
    let progressData : UserProgressRow :=
      match findProgress st.user_progress userId req.course_id with
      | some ex => mergeProgress ex userId req p now
      | none => freshProgress userId req p
    let newProgressTable : List UserProgressRow :=
      match findProgress st.user_progress userId req.course_id with
      | some ex =>
        st.user_progress.map (fun r =>
          if r.user_id == userId && r.course_id == req.course_id then mergeProgress ex userId req p now else r)
      | none => st.user_progress ++ [freshProgress userId req p]
    let newModuleTable : List ModuleProgressRow :=
      match req.module_id with
      | some mid =>
        upsertModuleProgress st.module_progress
          { user_id := userId, course_id := req.course_id, module_id := mid
            completed := p ≥ 100, time_spent := req.time_spent.getD 0, last_accessed := now }
      | none => st.module_progress
    let newCourses : List CourseStatusRow :=
      if p ≥ 100 then
        st.courses.map (fun c =>
          if c.id == req.course_id && c.user_id == userId then
            { c with status := "completed", completed_at := some now }
          else c)
      else st.courses
    ({ status := 200, success := true, progress := some progressData },
     { user_progress := newProgressTable, module_progress := newModuleTable, courses := newCourses })

/-- Model of `calculateLearningStreak`: walk the `user_progress` rows in
descending `last_accessed` order (timestamps modelled at calendar-day
granularity, as both sides are floored to midnight before the whole-day
difference is taken); increment the streak while the record's day difference
from today equals the running counter, stop at the first mismatch. -/
def streakGo (today : Int) : List Int → Nat → Nat
  | [], streak => streak
  | d :: rest, streak =>
    if today - d = (streak : Int) then streakGo today rest (streak + 1) else streak

/-- Model of `calculateLearningStreak`: `accessDays` is the `last_accessed`
calendar day of each `user_progress` row, most recent first. -/
def calculateLearningStreak (today : Int) (accessDays : List Int) : Nat :=
  streakGo today accessDays 0

/-- Modelled from the spec: `count of consecutive calendar days
(most-recent-first) with at least one access` anchored at today, broken at
the first day with no access — the claim's description of the streak. -/
def specStreak (today : Int) (accessDays : List Int) : Nat :=
  ((List.range accessDays.length).takeWhile (fun k => accessDays.contains (today - (k : Int)))).length

/-- Row of `course_generation_sessions`. -/
structure Session where
  id : String
  clerk_user_id : String
  topic : String
  context : String
  knowledge_level : String
  learning_goals : String
  preferred_duration : String
  current_outline : Json
  status : String
  updated_at : Nat

/-- Row of `course_conversations` (rows held in creation order, which the
`order(created_at)` fetch reproduces). -/
structure ConversationRow where
  session_id : String
  message_type : String
  content : String

/-- Request body of `edit-course-outline` (`EditRequest`); `none` models an
absent/nullish `current_outline`. -/
structure EditRequest where
  session_id : String
  user_message : String
  current_outline : Option Json
  clerk_user_id : String

/-- Database state visible to `edit-course-outline`. -/
structure EditState where
  sessions : List Session
  conversations : List ConversationRow

/-- Outcome flags for the two persistence writes of `edit-course-outline`
(the handler never inspects either error). -/
structure EditPersist where
  convInsertOk : Bool
  sessionUpdateOk : Bool

/-- Response of `edit-course-outline`. -/
structure EditResponse where
  status : Nat
  success : Bool
  updated_outline : Option Json

/-- The `.eq(id).eq(clerk_user_id).single()` session read shared by
`edit-course-outline` and `generate-final-course`. -/
def findSession (l : List Session) (sid uid : String) : Option Session :=
  l.find? (fun s => s.id == sid && s.clerk_user_id == uid)

/-- Rendered transcript: `User:`/`Assistant:` lines joined by blank lines
(the empty-history branch also yields the empty string). -/
def conversationContext (convs : List ConversationRow) : String :=
  joinSep "\n\n" (convs.map (fun conv =>
    (if conv.message_type = "user" then "User" else "Assistant") ++ ": " ++ conv.content))

/-- The edit prompt of `edit-course-outline` (source lines 71-91): the five
session parameters, the CLIENT-SUPPLIED outline serialized verbatim, the
transcript and the new user message. -/
def mkEditPrompt (s : Session) (clientOutline : Json) (ctx : String) (userMessage : String) : String :=
  "You are helping a user refine their course outline. Here\x27s the context:\n\nORIGINAL COURSE REQUEST:\n- Topic: " ++ s.topic ++
  "\n- Context: " ++ s.context ++
  "\n- Knowledge Level: " ++ s.knowledge_level ++
  "\n- Learning Goals: " ++ s.learning_goals ++
  "\n- Preferred Duration: " ++ s.preferred_duration ++
  "\n\nCURRENT COURSE OUTLINE:\n" ++ Json.stringify clientOutline ++
  "\n\nCONVERSATION HISTORY:\n" ++ ctx ++
  "\n\nUSER\x27S NEW REQUEST:\n" ++ userMessage ++
  "\n\nPlease update the course outline based on the user\x27s request. Maintain the same JSON structure as the current outline, but modify the content according to their feedback. If they want to add modules, remove modules, change the focus, or adjust the difficulty, please make those changes while keeping the overall structure coherent.\n\nReturn the updated outline as a JSON object with the same structure as the current outline."

/-- The fixed assistant-side conversation entry recorded after a successful
edit. -/
def assistantMessage (updatedOutline : Json) : String :=
  "I\x27ve updated your course outline based on your feedback. Here are the key changes I made:\n\n" ++
  Json.stringify updatedOutline

/-- Overwrite `current_outline`/`updated_at` of every session matching the
id (the update is filtered by `id` only). -/
def applyOutlineUpdate (sid : String) (o : Json) (now : Nat) (l : List Session) : List Session :=
  l.map (fun s => if s.id == sid then { s with current_outline := o, updated_at := now } else s)

/-- Steps of `edit-course-outline` from the provider call onwards: call the
model with the already-built prompt, recover the structured outline, then
fire-and-forget the two persistence writes (their outcome flags change the
database state but never the response). -/
def editModelPhase (model : String → Except String String) (pers : EditPersist) (now : Nat)
    (req : EditRequest) (prompt : String) (st : EditState) : EditResponse × EditState × List String :=
  match model prompt with
  | Except.error _ => ({ status := 500, success := false, updated_outline := none }, st, [prompt])
  | Except.ok content =>
    match parseModelOutput content with
    | none => ({ status := 500, success := false, updated_outline := none }, st, [prompt])
    | some updatedOutline =>
      let st1 : EditState :=
        if pers.convInsertOk then
          { st with conversations := st.conversations ++
              [{ session_id := req.session_id, message_type := "user", content := req.user_message },
               { session_id := req.session_id, message_type := "assistant", content := assistantMessage updatedOutline }] }
        else st
      let st2 : EditState :=
        if pers.sessionUpdateOk then
          { st1 with sessions := applyOutlineUpdate req.session_id updatedOutline now st1.sessions }
        else st1
      ({ status := 200, success := true, updated_outline := some updatedOutline }, st2, [prompt])

/-- Shallow embedding of the `edit-course-outline` handler.  `model` is the
provider call (prompt to text); the returned list records the prompts sent.
The prompt embeds the CLIENT-SUPPLIED outline; the stored
`session.current_outline` is never read. -/
def editOutline (model : String → Except String String) (pers : EditPersist) (now : Nat)
    (req : EditRequest) (st : EditState) : EditResponse × EditState × List String :=
  match req.current_outline with
  | none => ({ status := 400, success := false, updated_outline := none }, st, [])
  | some clientOutline =>
    if req.session_id = "" ∨ req.user_message = "" ∨ req.clerk_user_id = "" then
      ({ status := 400, success := false, updated_outline := none }, st, [])
    else
      match findSession st.sessions req.session_id req.clerk_user_id with
      | none => ({ status := 404, success := false, updated_outline := none }, st, [])
      | some s =>
        let ctx := conversationContext (st.conversations.filter (fun c2 => c2.session_id == req.session_id))
        editModelPhase model pers now req (mkEditPrompt s clientOutline ctx req.user_message) st
def FINAL_COURSE_SYSTEM_PROMPT : String :=
  "Full Self-Teaching Course Generation\nYour task is to generate a fully detailed self-teaching course based on the approved course proposal and the following user requirements and constraints.\n\nVariables (retain placeholders):\n(1) Topic/Subject: \x7bTOPIC\x7d\n(2) Context & Background: \x7bCONTEXT\x7d\n(3) Current Knowledge Level of User: \x7bKNOWLEDGE_LEVEL\x7d\n(4) User\x27s Learning Goals: \x7bLEARNING_GOALS\x7d\n(5) Preferred Duration: \x7bPREFERRED_DURATION\x7d\n(6) Approved Course Outline: \x7bCOURSE_OUTLINE\x7d\n\nInstructions\nStrict Adherence to Proposal\n\nUse the provided \x7bCOURSE_OUTLINE\x7d as the structure for the course.\n\nMaintain the agreed number of modules, order, and depth as specified in the outline.\n\nOnly make minor adjustments (e.g., sequencing, examples) if absolutely necessary for logical flow; otherwise, request clarification.\n\nContent Creation\n\nFor each module and lesson, generate:\n\nA clear, descriptive title.\n\nConcise learning objectives/outcomes aligned with \x7bLEARNING_GOALS\x7d and \x7bKNOWLEDGE_LEVEL\x7d.\n\nDetailed explanations, structured logically and written accessibly for the user\x27s background.\n\nDiverse instructional methods and learning styles (e.g., concise readings, hands-on or practical tasks, relevant multimedia suggestions, interactive exercises, discussion prompts, or quizzes), as appropriate per section.\n\nReal-world examples, analogies, or case studies where relevant.\n\nAt least one suggested assessment or self-evaluation activity per lesson/module.\n\nEnd-of-lesson summary or key takeaway points.\n\nAdjust the quantity and depth of content to fit \x7bPREFERRED_DURATION\x7d, balancing comprehensiveness with efficiency.\n\nGive actionable study and progression advice (e.g., recommended pace, optional deeper learning).\n\nReferences and Transparency\n\nCite all sources clearly at the end of each lesson and in a consolidated reference list at the end of the course.\n\nOnly use reputable, authoritative, and/or peer-reviewed sources.\n\nExplicitly note any limitations, open questions, or areas of uncertainty.\n\nOutput Formatting\n\nPresent the course as a clear, hierarchical outline of modules and lessons.\n\nUse bullet points, numbered lists, tables, or clear sections as needed for readability.\n\nInclude an introductory section summarizing the overall course aim, prerequisites (if any), and instructions for the learner.\n\nResponsiveness to User Needs\n\nKeep all language and instructional detail directly matched to \x7bKNOWLEDGE_LEVEL\x7d and \x7bLEARNING_GOALS\x7d.\n\nEnsure tone and examples are appropriate for the user profile."

/-- Split a character list around the first occurrence of a (nonempty)
pattern: `some (before, after)` or `none` when the pattern does not occur. -/
def splitFirst? (pat : List Char) : List Char → Option (List Char × List Char)
  | [] => none
  | c :: rest =>
    if (c :: rest).take pat.length = pat then some ([], (c :: rest).drop pat.length)
    else
      match splitFirst? pat rest with
      | some (b, a) => some (c :: b, a)
      | none => none

/-- Fuel-indexed body of `jsReplaceAll`. -/
def replaceAllF : Nat → String → String → String → String
  | 0, s, _, _ => s
  | f + 1, s, pat, repl =>
    match splitFirst? pat.data s.data with
    | some (b, a) => String.mk b ++ repl ++ replaceAllF f (String.mk a) pat repl
    | none => s

/-- Model of `String.prototype.replace` with a global literal pattern
(`.replace(/PLACEHOLDER/g, value)`): replace every occurrence left to right,
never rescanning the replacement text. -/
def jsReplaceAll (s pat repl : String) : String :=
  replaceAllF (s.data.length + 1) s pat repl

/-- The personalized final-course prompt: the template with the five session
parameters and the serialized approved outline substituted for their
placeholders. -/
def mkFinalPrompt (s : Session) (outline : Json) : String :=
  jsReplaceAll (jsReplaceAll (jsReplaceAll (jsReplaceAll (jsReplaceAll (jsReplaceAll
    FINAL_COURSE_SYSTEM_PROMPT
    "\x7bTOPIC\x7d" s.topic)
    "\x7bCONTEXT\x7d" s.context)
    "\x7bKNOWLEDGE_LEVEL\x7d" s.knowledge_level)
    "\x7bLEARNING_GOALS\x7d" s.learning_goals)
    "\x7bPREFERRED_DURATION\x7d" s.preferred_duration)
    "\x7bCOURSE_OUTLINE\x7d" (Json.stringify outline)

/-- Request body of `generate-final-course` (`FinalCourseRequest`). -/
structure FinalCourseRequest where
  session_id : String
  approved_outline : Option Json
  clerk_user_id : String

/-- Row of the `courses` table as inserted by `generate-final-course`. -/
structure CourseRow where
  id : String
  clerk_user_id : String
  title : String
  description : String
  topic : String
  context : String
  knowledge_level : String
  objectives : List (Option Json)
  total_modules : Nat
  status : String
  ai_generated : Bool
  meta_session_id : String
  meta_outline : Json

/-- Row of the `course_modules` table (`title`/`description` keep whatever
the outline module carried, possibly absent). -/
structure CourseModuleRow where
  course_id : String
  title : Option Json
  description : Option Json
  content : String
  order_index : Nat
  exercises : List Json
  assessment_questions : List Json

/-- Row of `user_progress` as inserted by `generate-final-course` (this
function keys the row by `clerk_user_id`). -/
structure InitProgressRow where
  clerk_user_id : String
  course_id : String
  progress_percentage : Int
  completed_modules : List String
  time_spent : Int
  notes : String

/-- Database state visible to `generate-final-course`. -/
structure MatState where
  sessions : List Session
  courses : List CourseRow
  course_modules : List CourseModuleRow
  user_progress : List InitProgressRow

/-- Outcome flags for the four persistence steps of `generate-final-course`.
Only the course insert is checked (`if (courseError) throw`); module-insert
and progress-insert failures are logged and ignored, the session update is
not inspected at all. -/
structure MatPersist where
  courseInsertOk : Bool
  modulesInsertOk : Bool
  progressInsertOk : Bool
  sessionUpdateOk : Bool

/-- Response of `generate-final-course`. -/
structure MatResponse where
  status : Nat
  success : Bool
  course_id : Option String

/-- The `course_modules` rows built from the outline modules: 1-based
`order_index` in outline order, every row carrying the same generated body. -/
def mkCourseModules (courseId content : String) (mods : List Json) : List CourseModuleRow :=
  mapWithIndex (fun i m =>
    { course_id := courseId
      title := m.getField "title"
      description := m.getField "description"
      content := content
      order_index := i + 1
      exercises := []
      assessment_questions := [] }) 0 mods

/-- The `courses` row built by `generate-final-course`. -/
def mkCourseRow (newCourseId : String) (req : FinalCourseRequest) (s : Session) (outline : Json) : CourseRow :=
  { id := newCourseId
    clerk_user_id := req.clerk_user_id
    title := jsStrOr (outline.getField "title") s.topic
    description := jsStrOr (outline.getField "description") ("A comprehensive course on " ++ s.topic)
    topic := s.topic
    context := s.context
    knowledge_level := s.knowledge_level
    objectives := (outline.getArrField "modules").getD [] |>.map (fun m => m.getField "title")
    total_modules := ((outline.getArrField "modules").map List.length).getD 0
    status := "active"
    ai_generated := true
    meta_session_id := req.session_id
    meta_outline := outline }

/-- Shallow embedding of the `generate-final-course` handler; `newCourseId`
is the database-generated id of the inserted course and `now` the current
time.  A failing course insert throws (500); failing module or progress
inserts are only logged; the session-status update result is discarded. -/
def materializeCourse (model : String → Except String String) (pers : MatPersist)
    (newCourseId : String) (now : Nat) (req : FinalCourseRequest) (st : MatState) :
    MatResponse × MatState × List String :=
  match req.approved_outline with
  | none => ({ status := 400, success := false, course_id := none }, st, [])
  | some outline =>
    if req.session_id = "" ∨ req.clerk_user_id = "" then
      ({ status := 400, success := false, course_id := none }, st, [])
    else
      match findSession st.sessions req.session_id req.clerk_user_id with
      | none => ({ status := 404, success := false, course_id := none }, st, [])
      | some s =>
        let prompt := mkFinalPrompt s outline
        match model prompt with
        | Except.error _ => ({ status := 500, success := false, course_id := none }, st, [prompt])
        | Except.ok courseContent =>
          if pers.courseInsertOk then
            let st1 : MatState := { st with courses := st.courses ++ [mkCourseRow newCourseId req s outline] }
            let st2 : MatState :=
              match outline.getArrField "modules" with
              | some mods =>
                if pers.modulesInsertOk then
                  { st1 with course_modules := st1.course_modules ++ mkCourseModules newCourseId courseContent mods }
                else st1
              | none => st1
            let st3 : MatState :=
              if pers.progressInsertOk then
                { st2 with user_progress := st2.user_progress ++
                    [{ clerk_user_id := req.clerk_user_id, course_id := newCourseId
                       progress_percentage := 0, completed_modules := [], time_spent := 0, notes := "" }] }
              else st2
            let st4 : MatState :=
              if pers.sessionUpdateOk then
                { st3 with sessions := st3.sessions.map (fun s2 =>
                    if s2.id == req.session_id then { s2 with status := "completed", updated_at := now } else s2) }
              else st3
            ({ status := 200, success := true, course_id := some newCourseId }, st4, [prompt])
          else ({ status := 500, success := false, course_id := none }, st, [prompt])

/-- Sequential application of a list of progress updates
(caller, time, request). -/
def runUpdates (st : UPState) : List (String × Nat × ProgressUpdateRequest) → UPState
  | [] => st
  | (u, n, r) :: rest => runUpdates ((updateProgress u n r st).2) rest

/-- Concrete fixtures used by witnesses and counterexamples. -/
def fx100req : ProgressUpdateRequest := ⟨"c1", none, some 100, none, none, none⟩

def fx40req : ProgressUpdateRequest := ⟨"c1", none, some 40, none, some 5, none⟩

def fx30req : ProgressUpdateRequest := ⟨"c1", none, some 30, none, some 5, none⟩

def fxNeg1req : ProgressUpdateRequest := ⟨"c1", none, some (-1), none, none, none⟩

def fx101req : ProgressUpdateRequest := ⟨"c1", none, some 101, none, none, none⟩

def fxProgressRow : UserProgressRow := ⟨"u1", "c1", 10, [], 7, "", none⟩

def fxCourseRow : CourseStatusRow := ⟨"c1", "u1", "active", none⟩

def fxUPState : UPState := ⟨[fxProgressRow], [], [fxCourseRow]⟩

def fxUPState1 : UPState := (updateProgress "u1" 1 fx100req fxUPState).2

def fxUPState2 : UPState := (updateProgress "u1" 2 fx100req fxUPState1).2

def fxOutlineA : Json := Json.obj [("title", Json.str "A")]

def fxOutlineB : Json := Json.obj [("title", Json.str "B")]

def fxSession : Session :=
  ⟨"s1", "u1", "Photosynthesis", "for a biology exam", "beginner", "pass the exam", "3-5",
   fxOutlineA, "outline_review", 0⟩

def fxEditReq : EditRequest := ⟨"s1", "add a module on chlorophyll", some fxOutlineB, "u1"⟩

def fxEditRun : EditResponse × EditState × List String :=
  editOutline (fun _ => Except.ok "\x7b\x22title\x22:\x22C\x22\x7d") ⟨true, true⟩ 1 fxEditReq ⟨[fxSession], []⟩

def fxBadContent : String := "x \x7b\x22a\x22:1\x7d tail\x7d"

def fxMatOutline : Json :=
  Json.obj [("title", Json.str "T"),
            ("modules", Json.arr [Json.obj [("title", Json.str "M1"), ("description", Json.str "D1")],
                                  Json.obj [("title", Json.str "M2"), ("description", Json.str "D2")]])]

def fxMatReq : FinalCourseRequest := ⟨"s1", some fxMatOutline, "u1"⟩

def fxMatRunModulesFail : MatResponse × MatState × List String :=
  materializeCourse (fun _ => Except.ok "body") ⟨true, false, true, true⟩ "course1" 1 fxMatReq
    ⟨[fxSession], [], [], []⟩

def fxMatRunAllOk : MatResponse × MatState × List String :=
  materializeCourse (fun _ => Except.ok "body") ⟨true, true, true, true⟩ "course1" 1 fxMatReq
    ⟨[fxSession], [], [], []⟩

theorem find?_map_if_found {α : Type} (p : α → Bool) (m : α) (hm : p m = true) :
    ∀ l : List α, (∃ ex, l.find? p = some ex) →
      (l.map (fun r => if p r then m else r)).find? p = some m := by
  intro l
  induction l with
  | nil =>
    rintro ⟨ex, hex⟩
    simp at hex
  | cons r rest ih =>
    rintro ⟨ex, hex⟩
    cases hr : p r with
    | true =>
      simp only [List.map_cons, List.find?_cons, hr, eq_self_iff_true, if_true, hm]
    | false =>
      have hrest : ∃ ex, rest.find? p = some ex := by
        refine ⟨ex, ?_⟩
        simpa only [List.find?_cons, hr] using hex
      have hmain := ih hrest
      simp only [List.map_cons, List.find?_cons, hr, if_false, Bool.false_eq_true, ite_false]
      exact hmain

theorem findProgress_map_merge (l : List UserProgressRow) (userId cid : String)
    (ex m : UserProgressRow) (hex : findProgress l userId cid = some ex)
    (hm1 : m.user_id = userId) (hm2 : m.course_id = cid) :
    findProgress (l.map (fun r => if r.user_id == userId && r.course_id == cid then m else r)) userId cid = some m := by
  unfold findProgress at hex ⊢
  exact find?_map_if_found _ m (by simp [hm1, hm2]) l ⟨ex, hex⟩

theorem updateProgress_found (userId : String) (now : Nat) (req : ProgressUpdateRequest)
    (st : UPState) (ex : UserProgressRow) (p : Int)
    (hcid : req.course_id ≠ "") (hp : req.progress_percentage = some p)
    (hex : findProgress st.user_progress userId req.course_id = some ex) :
    (updateProgress userId now req st).1 = ⟨200, true, some (mergeProgress ex userId req p now)⟩ ∧
    (updateProgress userId now req st).2.user_progress =
      st.user_progress.map (fun r =>
        if r.user_id == userId && r.course_id == req.course_id then mergeProgress ex userId req p now else r) := by
  have hcond : ¬(req.course_id = "" ∨ (some p : Option Int) = none) := by simp [hcid]
  refine ⟨?_, ?_⟩ <;>
  · simp only [updateProgress, hp, hex, Option.getD_some]
    rw [if_neg hcond]

theorem updateProgress_found_find (userId : String) (now : Nat) (req : ProgressUpdateRequest)
    (st : UPState) (ex : UserProgressRow) (p : Int)
    (hcid : req.course_id ≠ "") (hp : req.progress_percentage = some p)
    (hex : findProgress st.user_progress userId req.course_id = some ex) :
    findProgress (updateProgress userId now req st).2.user_progress userId req.course_id =
      some (mergeProgress ex userId req p now) := by
  rw [(updateProgress_found userId now req st ex p hcid hp hex).2]
  exact findProgress_map_merge _ _ _ _ _ hex rfl rfl

/-- C3: on an existing ProgressRecord, the stored percentage becomes
`max(existing, incoming)` and the stored `time_spent` becomes
`existing + incoming delta`; submitting 40 then 30 leaves 40; re-submitting
an identical update leaves the percentage unchanged the second time while
adding the time delta both times. -/
theorem c3_merge_monotone_additive :
    (∀ (userId : String) (now : Nat) (req : ProgressUpdateRequest) (st : UPState)
        (ex : UserProgressRow) (p : Int),
      req.course_id ≠ "" → req.progress_percentage = some p →
      findProgress st.user_progress userId req.course_id = some ex →
      findProgress (updateProgress userId now req st).2.user_progress userId req.course_id =
        some (mergeProgress ex userId req p now) ∧
      (mergeProgress ex userId req p now).progress_percentage = max ex.progress_percentage p ∧
      (mergeProgress ex userId req p now).time_spent = ex.time_spent + req.time_spent.getD 0) ∧
    (∀ (userId : String) (n1 n2 : Nat) (req1 req2 : ProgressUpdateRequest) (st : UPState)
        (ex : UserProgressRow),
      req2.course_id = req1.course_id → req1.course_id ≠ "" →
      req1.progress_percentage = some 40 → req2.progress_percentage = some 30 →
      findProgress st.user_progress userId req1.course_id = some ex →
      ex.progress_percentage ≤ 40 →
      ∃ m, findProgress (updateProgress userId n2 req2 (updateProgress userId n1 req1 st).2).2.user_progress
             userId req2.course_id = some m ∧ m.progress_percentage = 40) ∧
    (∀ (userId : String) (n1 n2 : Nat) (req : ProgressUpdateRequest) (st : UPState)
        (ex : UserProgressRow) (p : Int),
      req.course_id ≠ "" → req.progress_percentage = some p →
      findProgress st.user_progress userId req.course_id = some ex →
      ∃ m1 m2,
        findProgress (updateProgress userId n1 req st).2.user_progress userId req.course_id = some m1 ∧
        findProgress (updateProgress userId n2 req (updateProgress userId n1 req st).2).2.user_progress
          userId req.course_id = some m2 ∧
        m2.progress_percentage = m1.progress_percentage ∧
        m1.time_spent = ex.time_spent + req.time_spent.getD 0 ∧
        m2.time_spent = m1.time_spent + req.time_spent.getD 0) := by
  refine ⟨?_, ?_, ?_⟩
  · intro userId now req st ex p hcid hp hex
    exact ⟨updateProgress_found_find userId now req st ex p hcid hp hex, rfl, rfl⟩
  · intro userId n1 n2 req1 req2 st ex hcc hcid h40 h30 hex hle
    have h1 := updateProgress_found_find userId n1 req1 st ex 40 hcid h40 hex
    rw [← hcc] at h1
    have h2 := updateProgress_found_find userId n2 req2 (updateProgress userId n1 req1 st).2
      (mergeProgress ex userId req1 40 n1) 30 (hcc ▸ hcid) h30 h1
    refine ⟨_, h2, ?_⟩
    show max (mergeProgress ex userId req1 40 n1).progress_percentage 30 = 40
    show max (max ex.progress_percentage 40) 30 = 40
    rw [max_eq_right hle]
    decide
  · intro userId n1 n2 req st ex p hcid hp hex
    have h1 := updateProgress_found_find userId n1 req st ex p hcid hp hex
    have h2 := updateProgress_found_find userId n2 req (updateProgress userId n1 req st).2
      (mergeProgress ex userId req p n1) p hcid hp h1
    refine ⟨_, _, h1, h2, ?_, rfl, rfl⟩
    show max (max ex.progress_percentage p) p = max ex.progress_percentage p
    rw [max_assoc, max_self]

/-- C3 witness: concrete run of the merge formula on the fixture state. -/
theorem c3_witness :
    findProgress (updateProgress "u1" 1 fx40req fxUPState).2.user_progress "u1" fx40req.course_id =
      some (mergeProgress fxProgressRow "u1" fx40req 40 1) ∧
    (mergeProgress fxProgressRow "u1" fx40req 40 1).progress_percentage =
      max fxProgressRow.progress_percentage 40 ∧
    (mergeProgress fxProgressRow "u1" fx40req 40 1).time_spent =
      fxProgressRow.time_spent + fx40req.time_spent.getD 0 :=
  c3_merge_monotone_additive.1 "u1" 1 fx40req fxUPState fxProgressRow 40 (by decide) rfl rfl

/-- C5 counterexample: progress_percentage = -1 (and 101) passes validation —
the handler answers 200 `success: true` and writes the out-of-range record,
instead of the claimed 400 rejection before any read or write. -/
theorem c5_counterexample :
    (updateProgress "u1" 1 fxNeg1req ⟨[], [], []⟩).1.status = 200 ∧
    (updateProgress "u1" 1 fxNeg1req ⟨[], [], []⟩).1.success = true ∧
    (updateProgress "u1" 1 fxNeg1req ⟨[], [], []⟩).2.user_progress = [freshProgress "u1" fxNeg1req (-1)] ∧
    (freshProgress "u1" fxNeg1req (-1)).progress_percentage = -1 ∧
    (updateProgress "u1" 1 fx101req ⟨[], [], []⟩).1.success = true := by
  decide

/-- C5 amended: the only validation of update-progress is presence — a
missing course identity or missing percentage yields 400 with no write, and
every supplied percentage (0 and 100, but also -1 and 101) is accepted:
there is no [0,100] range check. -/
theorem c5_amended_presence_only_validation :
    (∀ (userId : String) (now : Nat) (req : ProgressUpdateRequest) (st : UPState),
      ((updateProgress userId now req st).1.status = 400 ↔
        (req.course_id = "" ∨ req.progress_percentage = none))) ∧
    (∀ (userId : String) (now : Nat) (req : ProgressUpdateRequest) (st : UPState),
      (req.course_id = "" ∨ req.progress_percentage = none) →
      updateProgress userId now req st = (⟨400, false, none⟩, st)) ∧
    (∀ (userId : String) (now : Nat) (req : ProgressUpdateRequest) (st : UPState) (p : Int),
      req.course_id ≠ "" → req.progress_percentage = some p →
      (updateProgress userId now req st).1.status = 200 ∧
      (updateProgress userId now req st).1.success = true) := by
  refine ⟨?_, ?_, ?_⟩
  · intro userId now req st
    by_cases h : req.course_id = "" ∨ req.progress_percentage = none
    · simp [updateProgress, if_pos h, h]
    · simp only [updateProgress, if_neg h]
      simp [h]
  · intro userId now req st h
    simp only [updateProgress, if_pos h]
  · intro userId now req st p hcid hp
    have h : ¬(req.course_id = "" ∨ req.progress_percentage = none) := by simp [hcid, hp]
    constructor <;> simp only [updateProgress, if_neg h]

/-- C5 amended witness: -1 is accepted on the empty state. -/
theorem c5_amended_witness :
    (updateProgress "u1" 1 fxNeg1req ⟨[], [], []⟩).1.status = 200 ∧
    (updateProgress "u1" 1 fxNeg1req ⟨[], [], []⟩).1.success = true :=
  c5_amended_presence_only_validation.2.2 "u1" 1 fxNeg1req ⟨[], [], []⟩ (-1) (by decide) rfl

/-- C4 counterexample: a second identical 100% update does NOT leave
completed_at unchanged — it is re-stamped with the new current time. -/
theorem c4_counterexample :
    fxUPState1.courses = [⟨"c1", "u1", "completed", some 1⟩] ∧
    fxUPState2.courses = [⟨"c1", "u1", "completed", some 2⟩] ∧
    ¬ (fxUPState2.courses.map CourseStatusRow.completed_at =
        fxUPState1.courses.map CourseStatusRow.completed_at) := by
  decide

/-- C4 amended: whenever an update supplies progress_percentage ≥ 100, the
matching course row gets status `completed` and completed_at stamped with the
current time; a second identical update leaves the status unchanged but
re-stamps completed_at with the (new) current time. -/
theorem c4_amended_completion_restamps
    (userId : String) (n1 n2 : Nat) (req : ProgressUpdateRequest) (st : UPState) (p : Int)
    (hcid : req.course_id ≠ "") (hp : req.progress_percentage = some p) (h100 : 100 ≤ p) :
    ((updateProgress userId n1 req st).2.courses =
      st.courses.map (fun c => if c.id == req.course_id && c.user_id == userId then
        { c with status := "completed", completed_at := some n1 } else c)) ∧
    ((updateProgress userId n2 req (updateProgress userId n1 req st).2).2.courses =
      st.courses.map (fun c => if c.id == req.course_id && c.user_id == userId then
        { c with status := "completed", completed_at := some n2 } else c)) := by
  have hcond : ¬(req.course_id = "" ∨ req.progress_percentage = none) := by simp [hcid, hp]
  have step : ∀ (n : Nat) (st2 : UPState), (updateProgress userId n req st2).2.courses =
      st2.courses.map (fun c => if c.id == req.course_id && c.user_id == userId then
        { c with status := "completed", completed_at := some n } else c) := by
    intro n st2
    have hc2 : ¬(req.course_id = "" ∨ (some p : Option Int) = none) := by simp [hcid]
    simp only [updateProgress, hp, Option.getD_some]
    rw [if_neg hc2, if_pos h100]
  refine ⟨step n1 st, ?_⟩
  rw [step n2 _, step n1 st, List.map_map]
  have hfun : ((fun c => if c.id == req.course_id && c.user_id == userId then
        { c with status := "completed", completed_at := some n2 } else c) ∘
      (fun c => if c.id == req.course_id && c.user_id == userId then
        { c with status := "completed", completed_at := some n1 } else c)) =
      (fun c : CourseStatusRow => if c.id == req.course_id && c.user_id == userId then
        { c with status := "completed", completed_at := some n2 } else c) := by
    funext c
    by_cases hc : (c.id == req.course_id && c.user_id == userId) = true
    · simp only [Function.comp, if_pos hc]
    · simp only [Function.comp, if_neg hc]
  rw [hfun]

/-- C4 amended witness: concrete runs at times 1 then 2 on the fixture. -/
theorem c4_amended_witness :
    (updateProgress "u1" 1 fx100req fxUPState).2.courses =
      fxUPState.courses.map (fun c => if c.id == fx100req.course_id && c.user_id == "u1" then
        { c with status := "completed", completed_at := some 1 } else c) :=
  (c4_amended_completion_restamps "u1" 1 2 fx100req fxUPState 100 (by decide) rfl (by decide)).1

theorem updateProgress_courses_cases (userId : String) (now : Nat)
    (req : ProgressUpdateRequest) (st : UPState) :
    (updateProgress userId now req st).2.courses = st.courses ∨
    (updateProgress userId now req st).2.courses =
      st.courses.map (fun c => if c.id == req.course_id && c.user_id == userId then
        { c with status := "completed", completed_at := some now } else c) := by
  by_cases hv : req.course_id = "" ∨ req.progress_percentage = none
  · left
    simp only [updateProgress, if_pos hv]
  · by_cases hp : req.progress_percentage.getD 0 ≥ 100
    · right
      simp only [updateProgress, if_neg hv]
      rw [if_pos hp]
    · left
      simp only [updateProgress, if_neg hv]
      rw [if_neg hp]

theorem updateProgress_courses_length (userId : String) (now : Nat)
    (req : ProgressUpdateRequest) (st : UPState) :
    (updateProgress userId now req st).2.courses.length = st.courses.length := by
  rcases updateProgress_courses_cases userId now req st with h | h <;> simp [h]

theorem runUpdates_courses_length (updates : List (String × Nat × ProgressUpdateRequest)) :
    ∀ st : UPState, (runUpdates st updates).courses.length = st.courses.length := by
  induction updates with
  | nil => intro st; rfl
  | cons u rest ih =>
    intro st
    obtain ⟨a, n, r⟩ := u
    rw [runUpdates, ih, updateProgress_courses_length]

/-- C10: the only course-status write of update-progress sets `completed`
(each row's status is either untouched or set to `completed`), and under any
sequence of progress updates a course that is `completed` stays `completed`. -/
theorem c10_completed_is_terminal :
    (∀ (userId : String) (now : Nat) (req : ProgressUpdateRequest) (st : UPState) (i : Nat)
        (h : i < st.courses.length) (h2 : i < (updateProgress userId now req st).2.courses.length),
      ((updateProgress userId now req st).2.courses.get ⟨i, h2⟩).status = (st.courses.get ⟨i, h⟩).status ∨
      ((updateProgress userId now req st).2.courses.get ⟨i, h2⟩).status = "completed") ∧
    (∀ (updates : List (String × Nat × ProgressUpdateRequest)) (st : UPState) (i : Nat)
        (h : i < st.courses.length) (h2 : i < (runUpdates st updates).courses.length),
      (st.courses.get ⟨i, h⟩).status = "completed" →
      ((runUpdates st updates).courses.get ⟨i, h2⟩).status = "completed") := by
  have step : ∀ (userId : String) (now : Nat) (req : ProgressUpdateRequest) (st : UPState) (i : Nat)
      (h : i < st.courses.length) (h2 : i < (updateProgress userId now req st).2.courses.length),
      ((updateProgress userId now req st).2.courses.get ⟨i, h2⟩).status = (st.courses.get ⟨i, h⟩).status ∨
      ((updateProgress userId now req st).2.courses.get ⟨i, h2⟩).status = "completed" := by
    intro userId now req st i h h2
    rcases updateProgress_courses_cases userId now req st with hcs | hcs
    · left
      congr 1
      simp only [List.get_eq_getElem]
      congr 1
    · have : ((updateProgress userId now req st).2.courses.get ⟨i, h2⟩) =
        (fun c => if c.id == req.course_id && c.user_id == userId then
          { c with status := "completed", completed_at := some now } else c) (st.courses.get ⟨i, h⟩) := by
        simp only [List.get_eq_getElem, hcs, List.getElem_map]
      rw [this]
      dsimp only
      by_cases hc : ((st.courses.get ⟨i, h⟩).id == req.course_id &&
          (st.courses.get ⟨i, h⟩).user_id == userId) = true
      · right
        rw [if_pos hc]
      · left
        rw [if_neg hc]
  refine ⟨step, ?_⟩
  intro updates
  induction updates with
  | nil =>
    intro st i h h2 hc
    exact hc
  | cons u rest ih =>
    intro st i h h2 hc
    obtain ⟨a, n, r⟩ := u
    have h3 : i < (updateProgress a n r st).2.courses.length := by
      rw [updateProgress_courses_length]; exact h
    have hstep := step a n r st i h h3
    have hcomp : ((updateProgress a n r st).2.courses.get ⟨i, h3⟩).status = "completed" := by
      rcases hstep with hs | hs
      · rw [hs, hc]
      · exact hs
    exact ih (updateProgress a n r st).2 i h3 h2 hcomp

/-- C10 witness: a completed course stays completed across a concrete pair of
later updates (including one with a sub-100 percentage). -/
theorem c10_witness :
    ((runUpdates fxUPState1 [("u1", 2, fx30req), ("u1", 3, fx100req)]).courses.get
      ⟨0, by decide⟩).status = "completed" :=
  c10_completed_is_terminal.2 [("u1", 2, fx30req), ("u1", 3, fx100req)] fxUPState1 0 (by decide)
    (by decide) (by decide)

theorem streakGo_eq (today : Int) :
    ∀ (l : List Int) (s : Nat),
      streakGo today l s =
        s + ((l.zip (List.range' s l.length)).takeWhile (fun q => q.1 = today - (q.2 : Int))).length := by
  intro l
  induction l with
  | nil => intro s; simp [streakGo]
  | cons d rest ih =>
    intro s
    rw [streakGo]
    have hrange : List.range' s (d :: rest).length = s :: List.range' (s + 1) rest.length := by
      rfl
    rw [hrange]
    by_cases hd : today - d = (s : Int)
    · rw [if_pos hd, ih (s + 1)]
      have hcond : (decide ((d : Int) = today - (s : Int))) = true := by
        simp only [decide_eq_true_eq]
        omega
      simp [List.zip_cons_cons, List.takeWhile_cons, hcond]
      omega
    · rw [if_neg hd]
      have hcond : (decide ((d : Int) = today - (s : Int))) = false := by
        simp only [decide_eq_false_iff_not]
        omega
      simp [List.zip_cons_cons, List.takeWhile_cons, hcond]

/-- C9 counterexample: with accesses on day 10 (twice) and day 9 and
today = 10, the code returns 1, but the count of consecutive calendar days
each having at least one access is 2 — a second record on an already-counted
day breaks the walk (`daysDiff !== streak`). -/
theorem c9_counterexample :
    calculateLearningStreak 10 [10, 10, 9] = 1 ∧
    specStreak 10 [10, 10, 9] = 2 ∧
    calculateLearningStreak 10 [10, 10, 9] ≠ specStreak 10 [10, 10, 9] := by
  decide

/-- C9 amended: learning_streak is the length of the longest PREFIX of the
access-record list (most-recent-first) whose k-th record lies exactly k
calendar days before today — so a duplicate record of an already-counted day
(or any out-of-pattern record) stops the count even without a day gap — and
it is 0 when there are no access records. -/
theorem c9_amended_streak_is_exact_offset_prefix (today : Int) (l : List Int) :
    calculateLearningStreak today l =
      ((l.zip (List.range l.length)).takeWhile (fun q => q.1 = today - (q.2 : Int))).length ∧
    calculateLearningStreak today [] = 0 := by
  constructor
  · rw [calculateLearningStreak, streakGo_eq, List.range_eq_range']
    omega
  · rfl

/-- C8 counterexample: on `x \x7b"a":1\x7d tail\x7d` the first balanced span
`\x7b"a":1\x7d` parses to a JSON object, but the code's greedy
first-brace-to-last-brace extraction does not parse, so the operation
signals MalformedModelOutput (500) where the claimed algorithm would
succeed. -/
theorem c8_counterexample :
    parseModelOutput fxBadContent = none ∧
    firstBalancedSpan fxBadContent = some "\x7b\x22a\x22:1\x7d" ∧
    jsonParse "\x7b\x22a\x22:1\x7d" = some (Json.obj [("a", Json.num 1)]) ∧
    (editOutline (fun _ => Except.ok fxBadContent) ⟨true, true⟩ 1 fxEditReq ⟨[fxSession], []⟩).1.status = 500 := by
  exact ⟨rfl, rfl, rfl, rfl⟩

/-- C8 amended: a direct parse is attempted first; on its failure the span
from the FIRST opening brace to the LAST closing brace of the text (greedy,
not the first balanced span) is extracted and parsed; if both attempts fail
the handler answers 500 with no state change and exactly one model call (no
retry). -/
theorem c8_amended_greedy_extraction :
    (∀ (content : String) (j : Json), jsonParse content = some j →
      parseModelOutput content = some j) ∧
    (∀ content : String, jsonParse content = none →
      parseModelOutput content = (greedyBraceSpan content).bind jsonParse) ∧
    (∀ (model : String → Except String String) (pers : EditPersist) (now : Nat)
        (req : EditRequest) (st : EditState) (clientOutline : Json) (s : Session) (content : String),
      req.current_outline = some clientOutline →
      ¬(req.session_id = "" ∨ req.user_message = "" ∨ req.clerk_user_id = "") →
      findSession st.sessions req.session_id req.clerk_user_id = some s →
      model (mkEditPrompt s clientOutline (conversationContext (st.conversations.filter
        (fun c2 => c2.session_id == req.session_id))) req.user_message) = Except.ok content →
      parseModelOutput content = none →
      editOutline model pers now req st =
        (⟨500, false, none⟩, st,
          [mkEditPrompt s clientOutline (conversationContext (st.conversations.filter
            (fun c2 => c2.session_id == req.session_id))) req.user_message])) := by
  refine ⟨?_, ?_, ?_⟩
  · intro content j h
    simp [parseModelOutput, h]
  · intro content h
    rcases hg : greedyBraceSpan content with _ | sub <;>
      simp [parseModelOutput, h, hg]
  · intro model pers now req st clientOutline s content hco hv hs hm hparse
    simp only [editOutline, hco, if_neg hv, hs]
    simp only [editModelPhase, hm, hparse]

/-- C8 amended witness: the malformed fixture yields 500 with no writes and
a single prompt. -/
theorem c8_amended_witness :
    editOutline (fun _ => Except.ok fxBadContent) ⟨true, true⟩ 1 fxEditReq ⟨[fxSession], []⟩ =
      (⟨500, false, none⟩, (⟨[fxSession], []⟩ : EditState),
        [mkEditPrompt fxSession fxOutlineB
          (conversationContext ((⟨[fxSession], []⟩ : EditState).conversations.filter
            (fun c2 => c2.session_id == fxEditReq.session_id))) fxEditReq.user_message]) :=
  c8_amended_greedy_extraction.2.2 (fun _ => Except.ok fxBadContent) ⟨true, true⟩ 1 fxEditReq
    ⟨[fxSession], []⟩ fxOutlineB fxSession fxBadContent rfl (by decide) rfl rfl rfl

theorem editModelPhase_trace (model : String → Except String String) (pers : EditPersist)
    (now : Nat) (req : EditRequest) (prompt : String) (st : EditState) :
    (editModelPhase model pers now req prompt st).2.2 = [prompt] := by
  rcases hm : model prompt with e | content <;> simp only [editModelPhase, hm]
  rcases hp : parseModelOutput content with _ | u <;> simp only [hp]

theorem editModelPhase_resp_trace (model : String → Except String String) (pers : EditPersist)
    (now : Nat) (req : EditRequest) (prompt : String) (st st2 : EditState) :
    (editModelPhase model pers now req prompt st).1 = (editModelPhase model pers now req prompt st2).1 ∧
    (editModelPhase model pers now req prompt st).2.2 = (editModelPhase model pers now req prompt st2).2.2 := by
  rcases hm : model prompt with e | content <;> simp only [editModelPhase, hm]
  · trivial
  · rcases hp : parseModelOutput content with _ | u <;> simp only [hp] <;> trivial

theorem findSession_map_outline (l : List Session) (sid uid : String) (o : Json) :
    findSession (l.map (fun s2 : Session => { s2 with current_outline := o })) sid uid =
      (findSession l sid uid).map (fun s2 : Session => { s2 with current_outline := o }) := by
  unfold findSession
  rw [List.find?_map]
  rfl

set_option maxRecDepth 4000 in
/-- C2 counterexample: with stored outline A and client outline B, the
prompt the handler sends to the model is the template over the CLIENT
outline B, which differs from the template over the stored outline A — so
the stored value does not win; the client value determines the prompt. -/
theorem c2_counterexample :
    fxEditRun.2.2 = [mkEditPrompt fxSession fxOutlineB "" "add a module on chlorophyll"] ∧
    mkEditPrompt fxSession fxOutlineB "" "add a module on chlorophyll" ≠
      mkEditPrompt fxSession fxOutlineA "" "add a module on chlorophyll" := by
  exact ⟨rfl, by decide⟩

/-- C2 amended: the edit prompt embeds the client-supplied current_outline
(the one from the request body); the session's stored current_outline is
never read — replacing it by anything changes neither the response nor the
prompt sent (a mismatch is still not an error, but the client value wins). -/
theorem c2_amended_prompt_is_client_outline :
    (∀ (model : String → Except String String) (pers : EditPersist) (now : Nat)
        (req : EditRequest) (st : EditState) (clientOutline : Json) (s : Session),
      req.current_outline = some clientOutline →
      ¬(req.session_id = "" ∨ req.user_message = "" ∨ req.clerk_user_id = "") →
      findSession st.sessions req.session_id req.clerk_user_id = some s →
      (editOutline model pers now req st).2.2 =
        [mkEditPrompt s clientOutline (conversationContext (st.conversations.filter
          (fun c2 => c2.session_id == req.session_id))) req.user_message]) ∧
    (∀ (model : String → Except String String) (pers : EditPersist) (now : Nat)
        (req : EditRequest) (st : EditState) (o : Json),
      (editOutline model pers now req
          { st with sessions := st.sessions.map (fun s2 : Session => { s2 with current_outline := o }) }).1 =
        (editOutline model pers now req st).1 ∧
      (editOutline model pers now req
          { st with sessions := st.sessions.map (fun s2 : Session => { s2 with current_outline := o }) }).2.2 =
        (editOutline model pers now req st).2.2) := by
  constructor
  · intro model pers now req st clientOutline s hco hv hs
    simp only [editOutline, hco, if_neg hv, hs]
    exact editModelPhase_trace model pers now req _ st
  · intro model pers now req st o
    rcases hco : req.current_outline with _ | co
    · simp [editOutline, hco]
    · by_cases hv : req.session_id = "" ∨ req.user_message = "" ∨ req.clerk_user_id = ""
      · simp [editOutline, hco, if_pos hv]
      · rcases hfs : findSession st.sessions req.session_id req.clerk_user_id with _ | s
        · have hfs2 : findSession
              (st.sessions.map (fun s2 : Session => { s2 with current_outline := o }))
              req.session_id req.clerk_user_id = none := by
            rw [findSession_map_outline, hfs]
            rfl
          simp [editOutline, hco, if_neg hv, hfs, hfs2]
        · have hfs2 : findSession
              (st.sessions.map (fun s2 : Session => { s2 with current_outline := o }))
              req.session_id req.clerk_user_id = some { s with current_outline := o } := by
            rw [findSession_map_outline, hfs]
            rfl
          simp only [editOutline, hco, if_neg hv, hfs, hfs2]
          exact editModelPhase_resp_trace model pers now req _ _ st

/-- C2 amended witness: the concrete fixture run sends exactly the
client-outline prompt. -/
theorem c2_amended_witness :
    fxEditRun.2.2 =
      [mkEditPrompt fxSession fxOutlineB
        (conversationContext ((⟨[fxSession], []⟩ : EditState).conversations.filter
          (fun c2 => c2.session_id == fxEditReq.session_id))) fxEditReq.user_message] :=
  c2_amended_prompt_is_client_outline.1 (fun _ => Except.ok "\x7b\x22title\x22:\x22C\x22\x7d")
    ⟨true, true⟩ 1 fxEditReq ⟨[fxSession], []⟩ fxOutlineB fxSession rfl (by decide) rfl

/-- C6: every successful edit (with its two persistence writes landing)
appends exactly two conversation rows, in order user-then-assistant, and
replaces the stored outline wholesale; the session's conversation grows by
exactly two. -/
theorem c6_edit_appends_two_and_replaces
    (model : String → Except String String) (now : Nat) (req : EditRequest) (st : EditState)
    (clientOutline : Json) (s : Session) (content : String) (newOutline : Json)
    (hco : req.current_outline = some clientOutline)
    (hv : ¬(req.session_id = "" ∨ req.user_message = "" ∨ req.clerk_user_id = ""))
    (hs : findSession st.sessions req.session_id req.clerk_user_id = some s)
    (hm : model (mkEditPrompt s clientOutline (conversationContext (st.conversations.filter
      (fun c2 => c2.session_id == req.session_id))) req.user_message) = Except.ok content)
    (hp : parseModelOutput content = some newOutline) :
    (editOutline model ⟨true, true⟩ now req st).1 = ⟨200, true, some newOutline⟩ ∧
    (editOutline model ⟨true, true⟩ now req st).2.1.conversations =
      st.conversations ++
        [⟨req.session_id, "user", req.user_message⟩,
         ⟨req.session_id, "assistant", assistantMessage newOutline⟩] ∧
    (editOutline model ⟨true, true⟩ now req st).2.1.sessions =
      applyOutlineUpdate req.session_id newOutline now st.sessions ∧
    ((editOutline model ⟨true, true⟩ now req st).2.1.conversations.filter
        (fun c2 => c2.session_id == req.session_id)).length =
      (st.conversations.filter (fun c2 => c2.session_id == req.session_id)).length + 2 := by
  have hrun : editOutline model ⟨true, true⟩ now req st =
      (⟨200, true, some newOutline⟩,
       ⟨applyOutlineUpdate req.session_id newOutline now st.sessions,
        st.conversations ++
          [⟨req.session_id, "user", req.user_message⟩,
           ⟨req.session_id, "assistant", assistantMessage newOutline⟩]⟩,
       [mkEditPrompt s clientOutline (conversationContext (st.conversations.filter
         (fun c2 => c2.session_id == req.session_id))) req.user_message]) := by
    simp only [editOutline, hco, if_neg hv, hs, editModelPhase, hm, hp]
    simp
  refine ⟨by rw [hrun], by rw [hrun], by rw [hrun], ?_⟩
  rw [hrun]
  show (List.filter (fun c2 => c2.session_id == req.session_id)
    (st.conversations ++
      [⟨req.session_id, "user", req.user_message⟩,
       ⟨req.session_id, "assistant", assistantMessage newOutline⟩])).length = _
  rw [List.filter_append, List.length_append]
  simp [List.filter]

/-- C6 witness: a concrete successful edit on the fixture session. -/
theorem c6_witness :
    (editOutline (fun _ => Except.ok "\x7b\x22title\x22:\x22C\x22\x7d") ⟨true, true⟩ 1 fxEditReq
      ⟨[fxSession], []⟩).1 = ⟨200, true, some (Json.obj [("title", Json.str "C")])⟩ :=
  (c6_edit_appends_two_and_replaces (fun _ => Except.ok "\x7b\x22title\x22:\x22C\x22\x7d") 1 fxEditReq
    ⟨[fxSession], []⟩ fxOutlineB fxSession "\x7b\x22title\x22:\x22C\x22\x7d"
    (Json.obj [("title", Json.str "C")]) rfl (by decide) rfl rfl rfl).1

/-- C1 counterexample: in a materialize run whose module insert fails (after
a successful model call), the response is still 200 `success: true` even
though no module row was written — the module-insert error is only logged. -/
theorem c1_counterexample :
    fxMatRunModulesFail.1.status = 200 ∧
    fxMatRunModulesFail.1.success = true ∧
    fxMatRunModulesFail.2.1.course_modules = [] :=
  ⟨rfl, rfl, rfl⟩

/-- C1 amended: after a successful model call, only a course-row insert
failure is reported (500, nothing persisted by the handler); failures of the
module insert, the initial-progress insert or the session-status update in
materialize-course, and of the conversation append or outline overwrite in
edit-outline, are ignored — the response still reports `success: true`. -/
theorem c1_amended_only_course_insert_checked :
    (∀ (model : String → Except String String) (pers : MatPersist) (newCourseId : String)
        (now : Nat) (req : FinalCourseRequest) (st : MatState) (outline : Json) (s : Session)
        (content : String),
      req.approved_outline = some outline →
      ¬(req.session_id = "" ∨ req.clerk_user_id = "") →
      findSession st.sessions req.session_id req.clerk_user_id = some s →
      model (mkFinalPrompt s outline) = Except.ok content →
      pers.courseInsertOk = false →
      (materializeCourse model pers newCourseId now req st).1 = ⟨500, false, none⟩ ∧
      (materializeCourse model pers newCourseId now req st).2.1 = st) ∧
    (∀ (model : String → Except String String) (pers : MatPersist) (newCourseId : String)
        (now : Nat) (req : FinalCourseRequest) (st : MatState) (outline : Json) (s : Session)
        (content : String),
      req.approved_outline = some outline →
      ¬(req.session_id = "" ∨ req.clerk_user_id = "") →
      findSession st.sessions req.session_id req.clerk_user_id = some s →
      model (mkFinalPrompt s outline) = Except.ok content →
      pers.courseInsertOk = true →
      (materializeCourse model pers newCourseId now req st).1 = ⟨200, true, some newCourseId⟩) ∧
    (∀ (model : String → Except String String) (pers : EditPersist) (now : Nat)
        (req : EditRequest) (st : EditState) (clientOutline : Json) (s : Session)
        (content : String) (newOutline : Json),
      req.current_outline = some clientOutline →
      ¬(req.session_id = "" ∨ req.user_message = "" ∨ req.clerk_user_id = "") →
      findSession st.sessions req.session_id req.clerk_user_id = some s →
      model (mkEditPrompt s clientOutline (conversationContext (st.conversations.filter
        (fun c2 => c2.session_id == req.session_id))) req.user_message) = Except.ok content →
      parseModelOutput content = some newOutline →
      (editOutline model pers now req st).1 = ⟨200, true, some newOutline⟩) := by
  refine ⟨?_, ?_, ?_⟩
  · intro model pers newCourseId now req st outline s content hao hv hs hm hfail
    constructor <;>
      simp only [materializeCourse, hao, if_neg hv, hs, hm, hfail, Bool.false_eq_true, if_false,
        ite_false]
  · intro model pers newCourseId now req st outline s content hao hv hs hm hok
    simp only [materializeCourse, hao, if_neg hv, hs, hm, hok, if_true, ite_true]
  · intro model pers now req st clientOutline s content newOutline hco hv hs hm hp
    simp only [editOutline, hco, if_neg hv, hs, editModelPhase, hm, hp]

/-- C1 amended witness: the modules-insert-failure fixture still answers
`success: true`, and a course-insert-failure run answers 500. -/
theorem c1_amended_witness :
    fxMatRunModulesFail.1 = ⟨200, true, some "course1"⟩ ∧
    (materializeCourse (fun _ => Except.ok "body") ⟨false, true, true, true⟩ "course1" 1 fxMatReq
      ⟨[fxSession], [], [], []⟩).1 = ⟨500, false, none⟩ :=
  ⟨c1_amended_only_course_insert_checked.2.1 (fun _ => Except.ok "body") ⟨true, false, true, true⟩
      "course1" 1 fxMatReq ⟨[fxSession], [], [], []⟩ fxMatOutline fxSession "body"
      rfl (by decide) rfl rfl rfl,
   (c1_amended_only_course_insert_checked.1 (fun _ => Except.ok "body") ⟨false, true, true, true⟩
      "course1" 1 fxMatReq ⟨[fxSession], [], [], []⟩ fxMatOutline fxSession "body"
      rfl (by decide) rfl rfl rfl).1⟩

theorem mapWithIndex_length {α β : Type} (f : Nat → α → β) :
    ∀ (i : Nat) (l : List α), (mapWithIndex f i l).length = l.length := by
  intro i l
  induction l generalizing i with
  | nil => rfl
  | cons a as ih => simp [mapWithIndex, ih]

theorem mapWithIndex_get {α β : Type} (f : Nat → α → β) :
    ∀ (l : List α) (i j : Nat) (h : j < l.length) (h2 : j < (mapWithIndex f i l).length),
      (mapWithIndex f i l).get ⟨j, h2⟩ = f (i + j) (l.get ⟨j, h⟩) := by
  intro l
  induction l with
  | nil =>
    intro i j h
    simp at h
  | cons a as ih =>
    intro i j h h2
    cases j with
    | zero => simp [mapWithIndex]
    | succ j2 =>
      have h3 : j2 < as.length := by simpa using h
      have h4 : j2 < (mapWithIndex f (i + 1) as).length := by
        rw [mapWithIndex_length]; exact h3
      show (mapWithIndex f (i + 1) as).get ⟨j2, h4⟩ = _
      rw [ih (i + 1) j2 h3 h4]
      congr 1
      omega

/-- C7: a fully successful materialize run on an authorized session with an
N-module approved outline creates exactly one Course row with
total_modules = N, exactly N CourseModule rows with order_index 1..N in
outline order, exactly one ProgressRecord at 0 for the caller and new
course, and marks the session completed. -/
theorem c7_materialize_success
    (model : String → Except String String) (newCourseId : String) (now : Nat)
    (req : FinalCourseRequest) (st : MatState) (outline : Json) (s : Session)
    (content : String) (mods : List Json)
    (hao : req.approved_outline = some outline)
    (hv : ¬(req.session_id = "" ∨ req.clerk_user_id = ""))
    (hs : findSession st.sessions req.session_id req.clerk_user_id = some s)
    (hm : model (mkFinalPrompt s outline) = Except.ok content)
    (hmods : outline.getArrField "modules" = some mods) :
    (materializeCourse model ⟨true, true, true, true⟩ newCourseId now req st).1 =
      ⟨200, true, some newCourseId⟩ ∧
    (materializeCourse model ⟨true, true, true, true⟩ newCourseId now req st).2.1.courses =
      st.courses ++ [mkCourseRow newCourseId req s outline] ∧
    (mkCourseRow newCourseId req s outline).total_modules = mods.length ∧
    (materializeCourse model ⟨true, true, true, true⟩ newCourseId now req st).2.1.course_modules =
      st.course_modules ++ mkCourseModules newCourseId content mods ∧
    (mkCourseModules newCourseId content mods).length = mods.length ∧
    (∀ (j : Nat) (h : j < mods.length) (h2 : j < (mkCourseModules newCourseId content mods).length),
      ((mkCourseModules newCourseId content mods).get ⟨j, h2⟩).order_index = j + 1 ∧
      ((mkCourseModules newCourseId content mods).get ⟨j, h2⟩).title =
        (mods.get ⟨j, h⟩).getField "title" ∧
      ((mkCourseModules newCourseId content mods).get ⟨j, h2⟩).content = content) ∧
    (materializeCourse model ⟨true, true, true, true⟩ newCourseId now req st).2.1.user_progress =
      st.user_progress ++ [⟨req.clerk_user_id, newCourseId, 0, [], 0, ""⟩] ∧
    (materializeCourse model ⟨true, true, true, true⟩ newCourseId now req st).2.1.sessions =
      st.sessions.map (fun s2 => if s2.id == req.session_id then
        { s2 with status := "completed", updated_at := now } else s2) := by
  have hrun : materializeCourse model ⟨true, true, true, true⟩ newCourseId now req st =
      (⟨200, true, some newCourseId⟩,
       ⟨st.sessions.map (fun s2 => if s2.id == req.session_id then
          { s2 with status := "completed", updated_at := now } else s2),
        st.courses ++ [mkCourseRow newCourseId req s outline],
        st.course_modules ++ mkCourseModules newCourseId content mods,
        st.user_progress ++ [⟨req.clerk_user_id, newCourseId, 0, [], 0, ""⟩]⟩,
       [mkFinalPrompt s outline]) := by
    simp only [materializeCourse, hao, if_neg hv, hs, hm, hmods]
    simp
  refine ⟨by rw [hrun], by rw [hrun], ?_, by rw [hrun], mapWithIndex_length _ 0 mods, ?_,
    by rw [hrun], by rw [hrun]⟩
  · simp [mkCourseRow, hmods]
  · intro j h h2
    simp only [mkCourseModules] at h2 ⊢
    rw [mapWithIndex_get _ mods 0 j h h2]
    exact ⟨by simp, rfl, rfl⟩

/-- C7 witness: concrete all-writes-succeed materialize run on a two-module
outline. -/
theorem c7_witness :
    fxMatRunAllOk.1 = ⟨200, true, some "course1"⟩ ∧
    fxMatRunAllOk.2.1.courses = [] ++ [mkCourseRow "course1" fxMatReq fxSession fxMatOutline] ∧
    (mkCourseRow "course1" fxMatReq fxSession fxMatOutline).total_modules = 2 := by
  have h := c7_materialize_success (fun _ => Except.ok "body") "course1" 1 fxMatReq
    ⟨[fxSession], [], [], []⟩ fxMatOutline fxSession "body"
    [Json.obj [("title", Json.str "M1"), ("description", Json.str "D1")],
     Json.obj [("title", Json.str "M2"), ("description", Json.str "D2")]]
    rfl (by decide) rfl rfl rfl
  exact ⟨h.1, h.2.1, h.2.2.1⟩
